import Mathlib

/-!
Shallow embedding of the gl-toolkit render-state cache, texture, shader and
vertex-buffer modules.  Driver interaction is modelled as an explicit trace of
`GLCall` values; each stateful operation takes the relevant cached state and
returns the new state together with the calls it issued.  Machine floats
(`f32`) are modelled as exact rationals with the explicit truncating byte cast
of the source spelled out; machine integers are `Nat`.
-/

/-- One call into the native graphics driver, as issued by the wrapper. -/
inductive GLCall where
  | useProgram (handle : Nat)
  | activeTexture (unit : Nat)
  | bindTexture (target handle : Nat)
  | texParameteri (target pname param : Nat)
  | genTextures
  | texImage2D (width height : Nat)
  | generateMipmap
  | enableCap (cap : Nat)
  | disableCap (cap : Nat)
  | viewportCall (x y width height : Nat)
  | clearColor (r g b a : ℚ)
  | frontFaceCall (mode : Nat)
  | blendFuncCall (src dst : Nat)
  | genVertexArrays
  | bindVertexArray (handle : Nat)
  | genBuffers
  | bindBuffer (target handle : Nat)
  | bufferData (target size usage : Nat)
  | enableVertexAttribArray (index : Nat)
  | vertexAttribPointer (index size typ : Nat) (normalized : Bool) (stride offset : Nat)
  | drawElements (mode count indexType offset : Nat)
  | drawArrays (mode first count : Nat)
  deriving Repr, DecidableEq

/-- The library's closed error enumeration (`src/error.rs`). -/
inductive Error where
  | NoMipmaps
  | AlreadyInitialized
  | InvalidTextureDimensions
  | CompileShaderStageFailed (log : String)
  | LinkShaderProgramFailed (log : String)
  deriving Repr, DecidableEq

/-- Packed 4-byte colour value (`src/color.rs`); channels are `u8`. -/
structure Color where
  r : Nat
  g : Nat
  b : Nat
  a : Nat
  deriving Repr, DecidableEq

def Color.make (r g b a : Nat) : Color := { r, g, b, a }

/- Native enumerant values of the OpenGL constants the source refers to. -/
def glBLEND : Nat := 0x0BE2
def glCOLOR_LOGIC_OP : Nat := 0x0BF2
def glCULL_FACE : Nat := 0x0B44
def glDEPTH_CLAMP : Nat := 0x864F
def glDEPTH_TEST : Nat := 0x0B71
def glDITHER : Nat := 0x0BD0
def glFRAMEBUFFER_SRGB : Nat := 0x8DB9
def glLINE_SMOOTH : Nat := 0x0B20
def glMULTISAMPLE : Nat := 0x809D
def glPOLYGON_OFFSET_FILL : Nat := 0x8037
def glPOLYGON_OFFSET_LINE : Nat := 0x2A02
def glPOLYGON_OFFSET_POINT : Nat := 0x2A01
def glPOLYGON_SMOOTH : Nat := 0x0B41
def glRASTERIZER_DISCARD : Nat := 0x8C89
def glSAMPLE_ALPHA_TO_COVERAGE : Nat := 0x809E
def glSAMPLE_ALPHA_TO_ONE : Nat := 0x809F
def glSAMPLE_COVERAGE : Nat := 0x80A0
def glSAMPLE_SHADING : Nat := 0x8C36
def glSAMPLE_MASK : Nat := 0x8E51
def glSCISSOR_TEST : Nat := 0x0C11
def glSTENCIL_TEST : Nat := 0x0B90
def glTEXTURE_CUBE_MAP_SEAMLESS : Nat := 0x884F
def glPROGRAM_POINT_SIZE : Nat := 0x8642
def glCW : Nat := 0x0900
def glCCW : Nat := 0x0901
def glTEXTURE_2D : Nat := 0x0DE1
def glTEXTURE0 : Nat := 0x84C0
def glTEXTURE_WRAP_S : Nat := 0x2802
def glTEXTURE_WRAP_T : Nat := 0x2803
def glTEXTURE_MIN_FILTER : Nat := 0x2801
def glTEXTURE_MAG_FILTER : Nat := 0x2800
def glCLAMP_TO_EDGE : Nat := 0x812F
def glREPEAT : Nat := 0x2901
def glMIRRORED_REPEAT : Nat := 0x8370
def glNEAREST : Nat := 0x2600
def glLINEAR : Nat := 0x2601
def glNEAREST_MIPMAP_NEAREST : Nat := 0x2700
def glLINEAR_MIPMAP_NEAREST : Nat := 0x2701
def glNEAREST_MIPMAP_LINEAR : Nat := 0x2702
def glLINEAR_MIPMAP_LINEAR : Nat := 0x2703
def glRGBA : Nat := 0x1908
def glUNSIGNED_BYTE_ENUM : Nat := 0x1401
def glUNSIGNED_SHORT_ENUM : Nat := 0x1403
def glARRAY_BUFFER : Nat := 0x8892
def glELEMENT_ARRAY_BUFFER : Nat := 0x8893
def glBYTE_ENUM : Nat := 0x1400
def glSHORT_ENUM : Nat := 0x1402
def glINT_ENUM : Nat := 0x1404
def glUNSIGNED_INT_ENUM : Nat := 0x1405
def glHALF_FLOAT : Nat := 0x140B
def glFLOAT_ENUM : Nat := 0x1406
def glDOUBLE_ENUM : Nat := 0x140A
def glFIXED_ENUM : Nat := 0x140C
def glPOINTS : Nat := 0x0000
def glTRIANGLES : Nat := 0x0004
def glTRIANGLE_STRIP : Nat := 0x0005
def glTRIANGLE_FAN : Nat := 0x0006
def glSTATIC_DRAW : Nat := 0x88E4

/-- Enabled-capability tags (`src/context.rs`, `enum Feature`). -/
inductive Feature where
  | Blend
  | ColorLogicOp
  | CullFace
  | DepthClamp
  | DepthTest
  | Dither
  | FramebufferSrgb
  | LineSmooth
  | Multisample
  | PolygonOffsetFill
  | PolygonOffsetLine
  | PolygonOffsetPoint
  | PolygonSmooth
  | RasterizerDiscard
  | SampleAlphaToCoverage
  | SampleAlphaToOne
  | SampleCoverage
  | SampleShading
  | SampleMask
  | ScissorTest
  | StencilTest
  | TextureCubeMapSeamless
  | ProgramPointSize
  deriving Repr, DecidableEq

def Feature.get_native : Feature → Nat
  | .Blend => glBLEND
  | .ColorLogicOp => glCOLOR_LOGIC_OP
  | .CullFace => glCULL_FACE
  | .DepthClamp => glDEPTH_CLAMP
  | .DepthTest => glDEPTH_TEST
  | .Dither => glDITHER
  | .FramebufferSrgb => glFRAMEBUFFER_SRGB
  | .LineSmooth => glLINE_SMOOTH
  | .Multisample => glMULTISAMPLE
  | .PolygonOffsetFill => glPOLYGON_OFFSET_FILL
  | .PolygonOffsetLine => glPOLYGON_OFFSET_LINE
  | .PolygonOffsetPoint => glPOLYGON_OFFSET_POINT
  | .PolygonSmooth => glPOLYGON_SMOOTH
  | .RasterizerDiscard => glRASTERIZER_DISCARD
  | .SampleAlphaToCoverage => glSAMPLE_ALPHA_TO_COVERAGE
  | .SampleAlphaToOne => glSAMPLE_ALPHA_TO_ONE
  | .SampleCoverage => glSAMPLE_COVERAGE
  | .SampleShading => glSAMPLE_SHADING
  | .SampleMask => glSAMPLE_MASK
  | .ScissorTest => glSCISSOR_TEST
  | .StencilTest => glSTENCIL_TEST
  | .TextureCubeMapSeamless => glTEXTURE_CUBE_MAP_SEAMLESS
  | .ProgramPointSize => glPROGRAM_POINT_SIZE

/-- Winding order (`src/context.rs`, `enum FrontFace`). -/
inductive FrontFace where
  | Clockwise
  | CounterClockwise
  deriving Repr, DecidableEq

/-- Blend factors (`src/context.rs`, `enum BlendComponent`). -/
inductive BlendComponent where
  | Zero
  | One
  | SrcColor
  | DstColor
  | SrcAlpha
  | DstAlpha
  | ConstColor
  | ConstAlpha
  | SrcAlphaSaturate
  | OneMinusSrcColor
  | OneMinusDstColor
  | OneMinusSrcAlpha
  | OneMinusDstAlpha
  | OneMinusConstColor
  | OneMinusConstAlpha
  deriving Repr, DecidableEq

/-- Cached viewport rectangle (`src/context.rs`, `struct Viewport`). -/
structure Viewport where
  x : Nat
  y : Nat
  width : Nat
  height : Nat
  deriving Repr, DecidableEq

/-- The process-wide render-state cache (`src/context.rs`, `struct State`). -/
structure CtxState where
  initialized : Bool
  front : FrontFace
  blend_src : BlendComponent
  blend_dst : BlendComponent
  clear_color : Color
  viewport : Viewport
  features : Finset Feature

/-- `context::enable`: `HashSet::insert` returns whether the feature was newly
inserted; the driver `glEnable` call is issued only in that case. -/
def enable (st : CtxState) (feature : Feature) : Bool × CtxState × List GLCall :=
  if feature ∈ st.features then
    (false, st, [])
  else
    (true, { st with features := insert feature st.features },
     [GLCall.enableCap feature.get_native])

/-- `context::disable`: `HashSet::remove` returns whether the feature was
present; the driver `glDisable` call is issued only in that case. -/
def disable (st : CtxState) (feature : Feature) : Bool × CtxState × List GLCall :=
  if feature ∈ st.features then
    (true, { st with features := st.features.erase feature },
     [GLCall.disableCap feature.get_native])
  else
    (false, st, [])

/-- `context::set_viewport`: compare the requested rectangle against the
cached one; call through and update the cache only on change. -/
def set_viewport (st : CtxState) (x y width height : Nat) : CtxState × List GLCall :=
  let viewport : Viewport := { x, y, width, height }
  if st.viewport ≠ viewport then
    ({ st with viewport := viewport }, [GLCall.viewportCall x y width height])
  else
    (st, [])

/-- Rust's saturating truncating cast `(q * 255.0) as u8`: multiply by 255,
truncate toward zero, clamp into the byte range. -/
def toByte (q : ℚ) : Nat := (min 255 ⌊q * 255⌋).toNat

/-- `context::set_clear_color`: convert the cached bytes back to normalized
values, compare against the requested channels, and on any difference issue
the driver call and store the requested channels quantized to bytes. -/
def set_clear_color (st : CtxState) (r g b a : ℚ) : CtxState × List GLCall :=
  let sr : ℚ := (st.clear_color.r : ℚ) / 255
  let sg : ℚ := (st.clear_color.g : ℚ) / 255
  let sb : ℚ := (st.clear_color.b : ℚ) / 255
  let sa : ℚ := (st.clear_color.a : ℚ) / 255
  if sr ≠ r ∨ sg ≠ g ∨ sb ≠ b ∨ sa ≠ a then
    ({ st with clear_color := Color.make (toByte r) (toByte g) (toByte b) (toByte a) },
     [GLCall.clearColor r g b a])
  else
    (st, [])

/-- Wrap axes (`src/texture.rs`, `enum WrapCoord`). -/
inductive WrapCoord where
  | S
  | T
  deriving Repr, DecidableEq

/-- Wrapping modes (`src/texture.rs`, `enum ClampMode`). -/
inductive ClampMode where
  | Edge
  | Repeat
  | RepeatMirrored
  deriving Repr, DecidableEq

/-- Minification filters (`src/texture.rs`, `enum MinFilter`). -/
inductive MinFilter where
  | Nearest
  | Linear
  | NearestMipmapNearest
  | NearestMipmapLinear
  | LinearMipmapNearest
  | LinearMipmapLinear
  deriving Repr, DecidableEq

/-- `MinFilter::get_native`, exactly as in the source: note that
`LinearMipmapNearest` is sent to `gl::LINEAR_MIPMAP_LINEAR`. -/
def MinFilter.get_native : MinFilter → Nat
  | .Nearest => glNEAREST
  | .Linear => glLINEAR
  | .NearestMipmapNearest => glNEAREST_MIPMAP_NEAREST
  | .NearestMipmapLinear => glNEAREST_MIPMAP_LINEAR
  | .LinearMipmapNearest => glLINEAR_MIPMAP_LINEAR
  | .LinearMipmapLinear => glLINEAR_MIPMAP_LINEAR

/-- Magnification filters (`src/texture.rs`, `enum MagFilter`). -/
inductive MagFilter where
  | Nearest
  | Linear
  deriving Repr, DecidableEq

def MagFilter.get_native : MagFilter → Nat
  | .Nearest => glNEAREST
  | .Linear => glLINEAR

/-- Per-unit cached binding handles (`src/texture.rs`, `struct TextureUnit`). -/
structure TextureUnit where
  d1_handle : Nat
  d2_handle : Nat
  d3_handle : Nat
  deriving Repr, DecidableEq

def TextureUnit.new : TextureUnit := { d1_handle := 0, d2_handle := 0, d3_handle := 0 }

/-- The texture module's process-wide cache (`src/texture.rs`, `struct State`). -/
structure TexState where
  active_unit : Nat
  units : List TextureUnit
  deriving Repr, DecidableEq

/-- `State::active_unit()`: `self.units[self.active_unit]` (indexing a
populated unit table; out-of-range reads are a panic in the source and are
given the all-zero unit here). -/
def TexState.activeUnitEntry (st : TexState) : TextureUnit :=
  st.units.getD st.active_unit TextureUnit.new

/-- A 2D texture wrapper (`src/texture.rs`, `struct Texture`). -/
structure Texture where
  mipmaps : Bool
  handle : Nat
  s_clamp : ClampMode
  t_clamp : ClampMode
  min_filter : MinFilter
  mag_filter : MagFilter
  width : Nat
  height : Nat
  deriving Repr, DecidableEq

/-- `Texture::build_texture`: reject a buffer whose length is not
`width * height * 4` before touching the driver; otherwise create, bind and
fill the image (the driver-assigned handle is the `glGenHandle` argument),
generating mipmaps only when asked. -/
def Texture.build_texture (glGenHandle : Nat) (buf : List Nat)
    (width height : Nat) (mipmaps : Bool) : Except Error Texture × List GLCall :=
  let total_size := width * height * 4
  if buf.length ≠ total_size then
    (Except.error Error.InvalidTextureDimensions, [])
  else
    (Except.ok
      { mipmaps, handle := glGenHandle,
        s_clamp := ClampMode.Edge, t_clamp := ClampMode.Edge,
        min_filter := MinFilter.Nearest, mag_filter := MagFilter.Nearest,
        width, height },
     [GLCall.genTextures,
      GLCall.bindTexture glTEXTURE_2D glGenHandle,
      GLCall.texParameteri glTEXTURE_2D glTEXTURE_WRAP_S glCLAMP_TO_EDGE,
      GLCall.texParameteri glTEXTURE_2D glTEXTURE_WRAP_T glCLAMP_TO_EDGE,
      GLCall.texParameteri glTEXTURE_2D glTEXTURE_MIN_FILTER glNEAREST,
      GLCall.texParameteri glTEXTURE_2D glTEXTURE_MAG_FILTER glNEAREST,
      GLCall.texImage2D width height] ++
     (if mipmaps then [GLCall.generateMipmap] else []))

/-- `Texture::bind`, exactly as in the source: switch the active unit only on
change, but issue `glBindTexture` only when the cached 2D handle of the active
unit already EQUALS this texture's handle, and never write that cached
handle. -/
def Texture.bind (t : Texture) (st : TexState) (unit : Nat) : TexState × List GLCall :=
  let unitStep : TexState × List GLCall :=
    if st.active_unit ≠ unit then
      ({ st with active_unit := unit }, [GLCall.activeTexture (glTEXTURE0 + unit)])
    else
      (st, [])
  let bindCalls :=
    if unitStep.1.activeUnitEntry.d2_handle = t.handle then
      [GLCall.bindTexture glTEXTURE_2D t.handle]
    else
      []
  (unitStep.1, unitStep.2 ++ bindCalls)

/-- Does this minification filter sample from mipmap levels?  Mirrors the
four-armed `match` in `Texture::set_min_filter`. -/
def MinFilter.needsMipmaps : MinFilter → Bool
  | .Nearest | .Linear => false
  | .NearestMipmapNearest | .NearestMipmapLinear
  | .LinearMipmapNearest | .LinearMipmapLinear => true

/-- `Texture::set_min_filter`: bind to unit 0, reject a mipmap-dependent
filter when the texture was built without mipmaps (leaving the texture
untouched), otherwise push the filter to the driver and cache it. -/
def Texture.set_min_filter (t : Texture) (st : TexState) (filter : MinFilter) :
    Except Error Unit × Texture × TexState × List GLCall :=
  let bindResult := t.bind st 0
  if filter.needsMipmaps && !t.mipmaps then
    (Except.error Error.NoMipmaps, t, bindResult.1, bindResult.2)
  else
    (Except.ok (), { t with min_filter := filter }, bindResult.1,
     bindResult.2 ++
       [GLCall.texParameteri glTEXTURE_2D glTEXTURE_MIN_FILTER filter.get_native])

/-- The shader module's process-wide cache (`src/shader.rs`, `struct State`). -/
structure ShaderState where
  active_program : Nat
  deriving Repr, DecidableEq

/-- `Shader::bind`, exactly as in the source: `glUseProgram` runs (and the
cache is rewritten) only when the cached active program already EQUALS this
program's handle. -/
def Shader.bind (handle : Nat) (st : ShaderState) : ShaderState × List GLCall :=
  if st.active_program = handle then
    ({ st with active_program := handle }, [GLCall.useProgram handle])
  else
    (st, [])

/-- Buffer usage modes (`src/vbo.rs`, `enum BufferMode`). -/
inductive BufferMode where
  | StaticDraw
  | StaticRead
  | StaticCopy
  | DynamicDraw
  | DynamicRead
  | DynamicCopy
  | StreamDraw
  | StreamRead
  | StreamCopy
  deriving Repr, DecidableEq

def BufferMode.to_raw_enum : BufferMode → Nat
  | .StaticDraw => 0x88E4
  | .StaticRead => 0x88E5
  | .StaticCopy => 0x88E6
  | .DynamicDraw => 0x88E8
  | .DynamicRead => 0x88E9
  | .DynamicCopy => 0x88EA
  | .StreamDraw => 0x88E0
  | .StreamRead => 0x88E1
  | .StreamCopy => 0x88E2

/-- Attribute element kinds (`src/vbo.rs`, `enum AttributeKind`). -/
inductive AttributeKind where
  | Byte
  | Short
  | Int
  | UnsignedByte
  | UnsignedShort
  | UnsignedInt
  | Half
  | Float
  | Double
  | Fixed
  deriving Repr, DecidableEq

def AttributeKind.to_raw_enum : AttributeKind → Nat
  | .Byte => glBYTE_ENUM
  | .Short => glSHORT_ENUM
  | .Int => glINT_ENUM
  | .UnsignedByte => glUNSIGNED_BYTE_ENUM
  | .UnsignedShort => glUNSIGNED_SHORT_ENUM
  | .UnsignedInt => glUNSIGNED_INT_ENUM
  | .Half => glHALF_FLOAT
  | .Float => glFLOAT_ENUM
  | .Double => glDOUBLE_ENUM
  | .Fixed => glFIXED_ENUM

/-- `AttributeKind::size`: byte size of one element
(`size_of` of the matching GL scalar type). -/
def AttributeKind.size : AttributeKind → Nat
  | .Byte => 1
  | .Short => 2
  | .Int => 4
  | .UnsignedByte => 1
  | .UnsignedShort => 2
  | .UnsignedInt => 4
  | .Half => 2
  | .Float => 4
  | .Double => 8
  | .Fixed => 4

/-- Primitive topologies (`src/vbo.rs`, `enum PrimitiveKind`). -/
inductive PrimitiveKind where
  | Points
  | Triangles
  | TriangleFan
  | TriangleStrip
  deriving Repr, DecidableEq

def PrimitiveKind.to_raw_enum : PrimitiveKind → Nat
  | .Points => glPOINTS
  | .Triangles => glTRIANGLES
  | .TriangleFan => glTRIANGLE_FAN
  | .TriangleStrip => glTRIANGLE_STRIP

/-- One attribute descriptor `(normalize, component count, element kind)`
as produced by `Vertex::attrs()`. -/
abbrev Attr := Bool × Nat × AttributeKind

/-- Byte footprint one attribute contributes: `attr.2.size() * attr.1` in the
source's offset accumulation. -/
def attrFootprint (attr : Attr) : Nat := attr.2.2.size * attr.2.1

/-- The attribute-describing calls of `VBO::build_vertex_buffer`'s loop:
slot index `i` counts up, `offset` accumulates each attribute's footprint. -/
def attribCallsAux (stride : Nat) : Nat → Nat → List Attr → List GLCall
  | _, _, [] => []
  | i, offset, attr :: rest =>
    GLCall.enableVertexAttribArray i ::
    GLCall.vertexAttribPointer i attr.2.1 attr.2.2.to_raw_enum attr.1 stride offset ::
    attribCallsAux stride (i + 1) (offset + attrFootprint attr) rest

/-- The per-attribute byte offsets the builder loop passes to
`glVertexAttribPointer`: running sum of the prior attributes' footprints. -/
def attrOffsets (attrs : List Attr) : List Nat :=
  (attrs.scanl (fun offset attr => offset + attrFootprint attr) 0).dropLast

/-- Sum of all declared attributes' footprints (the loop's final `offset`). -/
def attrsTotalSize (attrs : List Attr) : Nat :=
  attrs.foldl (fun offset attr => offset + attrFootprint attr) 0

/-- `VBO::build_vertex_buffer`: allocate and fill the vertex store
(`stride = size_of::<T>()`, total size `count * stride`), then describe every
declared attribute in order.  The driver-assigned buffer handle is the
`vboHandle` argument. -/
def build_vertex_buffer (mode : BufferMode) (stride vertexCount : Nat)
    (attrs : List Attr) (vboHandle : Nat) : List GLCall :=
  GLCall.genBuffers ::
  GLCall.bindBuffer glARRAY_BUFFER vboHandle ::
  GLCall.bufferData glARRAY_BUFFER (vertexCount * stride) mode.to_raw_enum ::
  attribCallsAux stride 0 0 attrs

/-- `VBO::build_index_buffer`: allocate and fill a 16-bit index store of
`count * 2` bytes. -/
def build_index_buffer (indices : List Nat) (iboHandle : Nat) : List GLCall :=
  [GLCall.genBuffers,
   GLCall.bindBuffer glELEMENT_ARRAY_BUFFER iboHandle,
   GLCall.bufferData glELEMENT_ARRAY_BUFFER (indices.length * 2) glSTATIC_DRAW]

/-- A vertex-buffer object (`src/vbo.rs`, `struct VBO`). -/
structure VBO where
  mode : BufferMode
  primitive_kind : PrimitiveKind
  handle : Nat
  vbo_handle : Nat
  ibo_handle : Nat
  index_count : Nat
  vertex_count : Nat
  deriving Repr, DecidableEq

/-- `VBO::new`: create and bind a vertex array, build the vertex store from
the vertex sequence's layout, build the index store only when an index
sequence is given (recording its length), and unbind.  Driver-assigned
handles are the `vao`/`vbo`/`ibo` arguments; the vertex data itself only
enters through its count and its type's attribute list and stride. -/
def VBO.new (mode : BufferMode) (primitive_kind : PrimitiveKind)
    (attrs : List Attr) (stride vertexCount : Nat)
    (indices : Option (List Nat)) (vao vbo ibo : Nat) : VBO × List GLCall :=
  let vbCalls := build_vertex_buffer mode stride vertexCount attrs vbo
  let (index_count, ibo_handle, ibCalls) :=
    match indices with
    | some list => (list.length, ibo, build_index_buffer list ibo)
    | none => (0, 0, [])
  ({ mode, primitive_kind, handle := vao, vbo_handle := vbo, ibo_handle,
     index_count, vertex_count := vertexCount },
   GLCall.genVertexArrays :: GLCall.bindVertexArray vao ::
     (vbCalls ++ ibCalls ++ [GLCall.bindVertexArray 0]))

/-- `VBO::render`: bind the vertex array, then one indexed draw over all
indices (16-bit, offset 0) when `index_count > 0`, else one non-indexed draw
over all vertices from 0; finally unbind. -/
def VBO.render (v : VBO) : List GLCall :=
  let kind := v.primitive_kind.to_raw_enum
  GLCall.bindVertexArray v.handle ::
    ((if v.index_count > 0 then
        [GLCall.drawElements kind v.index_count glUNSIGNED_SHORT_ENUM 0]
      else
        [GLCall.drawArrays kind 0 v.vertex_count]) ++
     [GLCall.bindVertexArray 0])

/-- Is this trace entry a draw call? -/
def GLCall.isDrawCall : GLCall → Bool
  | .drawElements _ _ _ _ => true
  | .drawArrays _ _ _ => true
  | _ => false

/-- Is this trace entry a `glTexParameteri` on `TEXTURE_MIN_FILTER`? -/
def GLCall.isMinFilterCall : GLCall → Bool
  | .texParameteri _ pname _ => pname == glTEXTURE_MIN_FILTER
  | _ => false

/- Packed memory layout of the builtin vertex structs.  `vex::Vector2` is two
`f32`s, `vex::Vector3` three `f32`s, `Color` four `u8`s; all vertex structs
are `repr(C, packed)`, so field offsets are cumulative field sizes. -/
def vector2Size : Nat := 2 * 4
def vector3Size : Nat := 3 * 4
def colorSize : Nat := 4

/-- `BasicVertex` in `src/vertex.rs`: `pos: Vector2`. -/
def vertexRsBasicVertexFieldOffsets : List Nat := [0]
def vertexRsBasicVertexSize : Nat := vector2Size
def vertexRsBasicVertexAttrs : List Attr := [(false, 2, AttributeKind.Float)]

/-- `ColorVertex` in `src/vertex.rs`: `pos: Vector3`, `color: Color`. -/
def vertexRsColorVertexFieldOffsets : List Nat := [0, vector3Size]
def vertexRsColorVertexSize : Nat := vector3Size + colorSize
def vertexRsColorVertexAttrs : List Attr :=
  [(false, 2, AttributeKind.Float), (true, 4, AttributeKind.UnsignedByte)]

/-- `TextureVertex` in `src/vertex.rs`: `pos: Vector3`, `coord: Vector2`. -/
def vertexRsTextureVertexFieldOffsets : List Nat := [0, vector3Size]
def vertexRsTextureVertexSize : Nat := vector3Size + vector2Size
def vertexRsTextureVertexAttrs : List Attr :=
  [(false, 3, AttributeKind.Float), (false, 2, AttributeKind.Float)]

/-- `BasicVertex` in `src/builtin.rs`: `pos: Vector3`. -/
def builtinBasicVertexFieldOffsets : List Nat := [0]
def builtinBasicVertexSize : Nat := vector3Size
def builtinBasicVertexAttrs : List Attr := [(false, 3, AttributeKind.Float)]

/-- `ColorVertex` in `src/builtin.rs`: `pos: Vector3`, `color: Color`. -/
def builtinColorVertexFieldOffsets : List Nat := [0, vector3Size]
def builtinColorVertexSize : Nat := vector3Size + colorSize
def builtinColorVertexAttrs : List Attr :=
  [(false, 3, AttributeKind.Float), (true, 4, AttributeKind.UnsignedByte)]

/-- `TextureVertex` in `src/builtin.rs`: `pos: Vector3`, `coord: Vector2`. -/
def builtinTextureVertexFieldOffsets : List Nat := [0, vector3Size]
def builtinTextureVertexSize : Nat := vector3Size + vector2Size
def builtinTextureVertexAttrs : List Attr :=
  [(false, 3, AttributeKind.Float), (false, 2, AttributeKind.Float)]

/-! ### Concrete states and helper lemmas used by the theorems below -/

/-- The context cache's initial value (`lazy_static` block in `src/context.rs`). -/
def ctx0 : CtxState :=
  { initialized := false
    front := FrontFace.CounterClockwise
    blend_src := BlendComponent.SrcAlpha
    blend_dst := BlendComponent.OneMinusSrcAlpha
    clear_color := Color.make 0 0 0 0
    viewport := { x := 0, y := 0, width := 0, height := 0 }
    features := ∅ }

/-- A context cache holding the byte quad (128,128,128,128). -/
def ctx128 : CtxState := { ctx0 with clear_color := Color.make 128 128 128 128 }

/-- A freshly initialized texture-unit table with one unit, nothing bound. -/
def texBindState : TexState := { active_unit := 0, units := [TextureUnit.new] }

/-- A texture as `build_texture` returns it with `mipmaps = false` and the
driver-assigned handle 1. -/
def sampleTexture : Texture :=
  { mipmaps := false, handle := 1
    s_clamp := ClampMode.Edge, t_clamp := ClampMode.Edge
    min_filter := MinFilter.Nearest, mag_filter := MagFilter.Nearest
    width := 1, height := 1 }

/-- The same texture built with `mipmaps = true`. -/
def mipTexture : Texture := { sampleTexture with mipmaps := true }

/-- `Texture::bind` never issues a `glTexParameteri` on `TEXTURE_MIN_FILTER`:
its trace holds only `glActiveTexture` and `glBindTexture` entries. -/
theorem bind_no_min_filter_calls (t : Texture) (st : TexState) (unit : Nat) :
    (t.bind st unit).2.filter GLCall.isMinFilterCall = [] := by
  unfold Texture.bind
  by_cases h : st.active_unit ≠ unit <;>
    simp [h, GLCall.isMinFilterCall]

/-! ### Claims -/

/-- C1: REFUTED BY THE CODE.  `Shader::bind` compares the cached active
program with `==` instead of `!=`: binding program 1 while program 0 is the
cached active program issues no `glUseProgram` call and leaves the cache at 0,
so the program does not become active; conversely, when the cache already
equals the handle the call is forwarded redundantly. -/
theorem shader_bind_is_inverted :
    (Shader.bind 1 { active_program := 0 }).2 = [] ∧
    (Shader.bind 1 { active_program := 0 }).1.active_program = 0 ∧
    Shader.bind 5 { active_program := 5 } =
      ({ active_program := 5 }, [GLCall.useProgram 5]) := by
  decide

/-- C2: REFUTED BY THE CODE.  `Texture::bind` issues `glBindTexture` only when
the cached 2D handle of the active unit already equals the texture's handle
(and never writes that cache): binding a fresh texture with handle 1 to unit 0
of a freshly initialized unit table issues no driver call at all, so the
texture does not become bound on that unit.  The active-unit half does behave
as claimed: switching from unit 1 to unit 0 issues exactly the
`glActiveTexture` call and updates the cached unit. -/
theorem texture_bind_is_inverted :
    sampleTexture.handle = 1 ∧
    texBindState.activeUnitEntry.d2_handle = 0 ∧
    sampleTexture.bind texBindState 0 = (texBindState, []) ∧
    sampleTexture.bind { active_unit := 1, units := [TextureUnit.new, TextureUnit.new] } 0 =
      ({ active_unit := 0, units := [TextureUnit.new, TextureUnit.new] },
       [GLCall.activeTexture (glTEXTURE0 + 0)]) := by
  decide

/-- C3: REFUTED BY THE CODE for the `ColorVertex` of `src/vertex.rs`.  The
builder's running-sum offsets match the packed field offsets for the
`BasicVertex` and `TextureVertex` of `src/vertex.rs` and for all three
`src/builtin.rs` vertex types (where the sums also equal the struct sizes,
i.e. the stride), but `vertex.rs`'s `ColorVertex` declares a 2-component
float position over a 3-float `Vector3` field: the builder places the color
attribute at byte offset 8 while the field lives at offset 12, and the
declared footprint 12 differs from the struct's packed size 16. -/
theorem color_vertex_attrs_mismatch :
    attrOffsets vertexRsBasicVertexAttrs = vertexRsBasicVertexFieldOffsets ∧
    attrsTotalSize vertexRsBasicVertexAttrs = vertexRsBasicVertexSize ∧
    attrOffsets vertexRsTextureVertexAttrs = vertexRsTextureVertexFieldOffsets ∧
    attrsTotalSize vertexRsTextureVertexAttrs = vertexRsTextureVertexSize ∧
    attrOffsets vertexRsColorVertexAttrs = [0, 8] ∧
    vertexRsColorVertexFieldOffsets = [0, 12] ∧
    attrOffsets vertexRsColorVertexAttrs ≠ vertexRsColorVertexFieldOffsets ∧
    attrsTotalSize vertexRsColorVertexAttrs = 12 ∧
    vertexRsColorVertexSize = 16 ∧
    attrOffsets builtinBasicVertexAttrs = builtinBasicVertexFieldOffsets ∧
    attrsTotalSize builtinBasicVertexAttrs = builtinBasicVertexSize ∧
    attrOffsets builtinColorVertexAttrs = builtinColorVertexFieldOffsets ∧
    attrsTotalSize builtinColorVertexAttrs = builtinColorVertexSize ∧
    attrOffsets builtinTextureVertexAttrs = builtinTextureVertexFieldOffsets ∧
    attrsTotalSize builtinTextureVertexAttrs = builtinTextureVertexSize := by
  decide

/-- C4: `enable` returns true, inserts the feature and issues exactly the one
driver enable call iff the feature was absent, and is a driver-silent no-op
returning false otherwise; `disable` is symmetric; and a second `enable` of
the same feature in a row always returns false with zero driver calls. -/
theorem enable_disable_spec (st : CtxState) (f : Feature) :
    ((enable st f).1 = true ↔ f ∉ st.features) ∧
    (enable st f).2.1.features = insert f st.features ∧
    (enable st f).2.2 =
      (if f ∈ st.features then [] else [GLCall.enableCap f.get_native]) ∧
    ((disable st f).1 = true ↔ f ∈ st.features) ∧
    (disable st f).2.1.features = st.features.erase f ∧
    (disable st f).2.2 =
      (if f ∈ st.features then [GLCall.disableCap f.get_native] else []) ∧
    (enable (enable st f).2.1 f).1 = false ∧
    (enable (enable st f).2.1 f).2.2 = [] := by
  by_cases h : f ∈ st.features <;>
    simp [enable, disable, h, Finset.insert_eq_self.mpr,
      Finset.erase_eq_self, Finset.mem_insert_self]

/-- C5: `set_viewport` issues zero driver calls when the requested rectangle
equals the cached one (leaving the whole state untouched) and exactly one
driver call otherwise; in every case the cached viewport afterwards equals the
requested rectangle. -/
theorem set_viewport_spec (st : CtxState) (x y width height : Nat) :
    (set_viewport st x y width height).2.length =
      (if st.viewport = { x, y, width, height } then 0 else 1) ∧
    (set_viewport st x y width height).1.viewport = { x, y, width, height } ∧
    (st.viewport = { x, y, width, height } →
      set_viewport st x y width height = (st, [])) := by
  by_cases h : st.viewport = { x, y, width, height } <;>
    simp [set_viewport, h]

/-- Witness for C5 at concrete inputs: on the initial cache an unchanged
viewport request is a silent no-op, and a changed one rewrites the cache. -/
theorem set_viewport_spec_witness :
    ctx0.viewport = { x := 0, y := 0, width := 0, height := 0 } ∧
    set_viewport ctx0 0 0 0 0 = (ctx0, []) ∧
    (set_viewport ctx0 1 2 3 4).1.viewport = { x := 1, y := 2, width := 3, height := 4 } :=
  ⟨rfl, (set_viewport_spec ctx0 0 0 0 0).2.2 rfl, (set_viewport_spec ctx0 1 2 3 4).2.1⟩

/-- Byte quantization: for a channel in `[0,1]`, the stored byte divided by
255 lies within `1/255` of the channel. -/
theorem toByte_close (q : ℚ) (h0 : 0 ≤ q) (h1 : q ≤ 1) :
    |((toByte q : ℕ) : ℚ) / 255 - q| ≤ 1 / 255 := by
  have hnn : (0 : ℚ) ≤ q * 255 := by positivity
  have hfl : 0 ≤ ⌊q * 255⌋ := Int.floor_nonneg.mpr hnn
  have hub : q * 255 ≤ 255 := by nlinarith
  have hfu : ⌊q * 255⌋ ≤ 255 := by
    have h := Int.floor_le_floor hub
    simpa using h
  have htb : ((toByte q : ℕ) : ℚ) = ((⌊q * 255⌋ : ℤ) : ℚ) := by
    unfold toByte
    rw [min_eq_right hfu]
    exact_mod_cast Int.toNat_of_nonneg hfl
  have hle : ((⌊q * 255⌋ : ℤ) : ℚ) ≤ q * 255 := Int.floor_le _
  have hlt : q * 255 < ((⌊q * 255⌋ : ℤ) : ℚ) + 1 := Int.lt_floor_add_one _
  rw [htb, abs_le]
  constructor <;> linarith

/-- C6 counterexample: with bytes (128,128,128,128) cached, the channel value
`251/500` quantizes back to byte 128 — the requested quad round-trips to the
cached quad — yet `set_clear_color` still issues a driver call, because the
comparison demands exact equality with `128/255`, not equal quantization. -/
theorem set_clear_color_roundtrip_cex :
    toByte (251 / 500) = 128 ∧
    Color.make (toByte (251 / 500)) (toByte (251 / 500)) (toByte (251 / 500))
        (toByte (251 / 500)) = ctx128.clear_color ∧
    (set_clear_color ctx128 (251 / 500) (251 / 500) (251 / 500) (251 / 500)).2 ≠ [] := by
  have htb : toByte (251 / 500 : ℚ) = 128 := by
    unfold toByte
    have hmul : ((251 : ℚ) / 500) * 255 = 12801 / 100 := by norm_num
    have hf : ⌊(12801 / 100 : ℚ)⌋ = 128 := by
      rw [Int.floor_eq_iff]
      norm_num
    rw [hmul, hf]
    decide
  have hne : ((128 : ℕ) : ℚ) / 255 ≠ 251 / 500 := by norm_num
  refine ⟨htb, by rw [htb]; rfl, ?_⟩
  simp only [set_clear_color, ctx128, ctx0, Color.make]
  rw [if_pos (Or.inl hne)]
  simp

/-- C6 (amended): after `set_clear_color` with channels in `[0,1]`, the cached
byte quad converted back to floats lies within `1/255` of each input channel;
and a call whose channels each EXACTLY equal the corresponding cached byte
divided by 255 issues no driver call and leaves the state unchanged (mere
round-tripping to the same byte quad does not suppress the call). -/
theorem set_clear_color_spec (st : CtxState) (r g b a : ℚ)
    (hr0 : 0 ≤ r) (hr1 : r ≤ 1) (hg0 : 0 ≤ g) (hg1 : g ≤ 1)
    (hb0 : 0 ≤ b) (hb1 : b ≤ 1) (ha0 : 0 ≤ a) (ha1 : a ≤ 1) :
    (|((set_clear_color st r g b a).1.clear_color.r : ℚ) / 255 - r| ≤ 1 / 255 ∧
     |((set_clear_color st r g b a).1.clear_color.g : ℚ) / 255 - g| ≤ 1 / 255 ∧
     |((set_clear_color st r g b a).1.clear_color.b : ℚ) / 255 - b| ≤ 1 / 255 ∧
     |((set_clear_color st r g b a).1.clear_color.a : ℚ) / 255 - a| ≤ 1 / 255) ∧
    ((st.clear_color.r : ℚ) / 255 = r → (st.clear_color.g : ℚ) / 255 = g →
     (st.clear_color.b : ℚ) / 255 = b → (st.clear_color.a : ℚ) / 255 = a →
     set_clear_color st r g b a = (st, [])) := by
  constructor
  · simp only [set_clear_color]
    split_ifs with hc
    · exact ⟨toByte_close r hr0 hr1, toByte_close g hg0 hg1,
        toByte_close b hb0 hb1, toByte_close a ha0 ha1⟩
    · push_neg at hc
      obtain ⟨h1, h2, h3, h4⟩ := hc
      refine ⟨?_, ?_, ?_, ?_⟩ <;> simp [h1, h2, h3, h4]
  · intro h1 h2 h3 h4
    simp [set_clear_color, h1, h2, h3, h4]

/-- Witness for C6 at concrete inputs: requesting exactly the cached black
quad on the initial cache is a silent no-op and trivially satisfies the
quantization bound. -/
theorem set_clear_color_spec_witness :
    |((set_clear_color ctx0 0 0 0 0).1.clear_color.r : ℚ) / 255 - 0| ≤ 1 / 255 ∧
    set_clear_color ctx0 0 0 0 0 = (ctx0, []) := by
  have h := set_clear_color_spec ctx0 0 0 0 0 (le_refl 0) (by norm_num)
    (le_refl 0) (by norm_num) (le_refl 0) (by norm_num) (le_refl 0) (by norm_num)
  exact ⟨h.1.1,
    h.2 (by norm_num [ctx0, Color.make]) (by norm_num [ctx0, Color.make])
      (by norm_num [ctx0, Color.make]) (by norm_num [ctx0, Color.make])⟩

/-- C7: texture construction fails with `InvalidTextureDimensions` exactly
when the buffer length is not `width * height * 4`, and on that failure the
driver trace is empty — the length guard precedes every driver call, so no
driver-visible resource is created. -/
theorem build_texture_spec (glGenHandle : Nat) (buf : List Nat)
    (width height : Nat) (mipmaps : Bool) :
    ((Texture.build_texture glGenHandle buf width height mipmaps).1 =
        Except.error Error.InvalidTextureDimensions ↔
      buf.length ≠ width * height * 4) ∧
    (buf.length ≠ width * height * 4 →
      (Texture.build_texture glGenHandle buf width height mipmaps).2 = []) := by
  by_cases h : buf.length = width * height * 4 <;>
    simp [Texture.build_texture, h]

/-- Witness for C7 at a concrete input: a 1-byte buffer for a 1×1 RGBA8
texture fails with `InvalidTextureDimensions` and issues no driver call. -/
theorem build_texture_spec_witness :
    ([0] : List Nat).length ≠ 1 * 1 * 4 ∧
    (Texture.build_texture 7 [0] 1 1 false).1 =
      Except.error Error.InvalidTextureDimensions ∧
    (Texture.build_texture 7 [0] 1 1 false).2 = [] :=
  ⟨by decide, (build_texture_spec 7 [0] 1 1 false).1.mpr (by decide),
    (build_texture_spec 7 [0] 1 1 false).2 (by decide)⟩

/-- C8: `set_min_filter` fails with `NoMipmaps` exactly when a
mipmap-dependent filter is requested on a texture built without mipmaps; in
that case the texture keeps its prior cached filter (it is unchanged) and no
driver `TEXTURE_MIN_FILTER` call appears in the trace; on success the cached
filter becomes the requested one. -/
theorem set_min_filter_spec (t : Texture) (st : TexState) (f : MinFilter) :
    ((t.set_min_filter st f).1 = Except.error Error.NoMipmaps ↔
      (f.needsMipmaps = true ∧ t.mipmaps = false)) ∧
    ((t.set_min_filter st f).1 = Except.error Error.NoMipmaps →
      (t.set_min_filter st f).2.1 = t ∧
      (t.set_min_filter st f).2.2.2.filter GLCall.isMinFilterCall = []) ∧
    ((t.set_min_filter st f).1 = Except.ok () →
      (t.set_min_filter st f).2.1.min_filter = f) := by
  cases hn : f.needsMipmaps <;> cases hm : t.mipmaps <;>
    simp [Texture.set_min_filter, hn, hm, bind_no_min_filter_calls]

/-- Witness for C8 at concrete inputs: a mipmap-dependent filter on a
mipmap-less texture fails with `NoMipmaps`, changes nothing and issues no
filter call; the same request on the mipmapped texture updates the filter. -/
theorem set_min_filter_spec_witness :
    MinFilter.needsMipmaps MinFilter.LinearMipmapLinear = true ∧
    sampleTexture.mipmaps = false ∧
    (sampleTexture.set_min_filter texBindState MinFilter.LinearMipmapLinear).1 =
      Except.error Error.NoMipmaps ∧
    (sampleTexture.set_min_filter texBindState MinFilter.LinearMipmapLinear).2.1 =
      sampleTexture ∧
    (sampleTexture.set_min_filter texBindState
        MinFilter.LinearMipmapLinear).2.2.2.filter GLCall.isMinFilterCall = [] ∧
    (mipTexture.set_min_filter texBindState
        MinFilter.LinearMipmapLinear).2.1.min_filter = MinFilter.LinearMipmapLinear := by
  have h1 := set_min_filter_spec sampleTexture texBindState MinFilter.LinearMipmapLinear
  have herr : (sampleTexture.set_min_filter texBindState MinFilter.LinearMipmapLinear).1 =
      Except.error Error.NoMipmaps := h1.1.mpr ⟨rfl, rfl⟩
  have h2 := set_min_filter_spec mipTexture texBindState MinFilter.LinearMipmapLinear
  exact ⟨rfl, rfl, herr, (h1.2.1 herr).1, (h1.2.1 herr).2, h2.2.2 rfl⟩

/-- C9: a VBO built from an index sequence records its length and `render`
issues exactly one draw call, an indexed one over all recorded indices with
the 16-bit unsigned index type at offset 0; a VBO built without indices
issues exactly one non-indexed draw over all vertices starting at 0. -/
theorem vbo_render_spec (mode : BufferMode) (pk : PrimitiveKind) (attrs : List Attr)
    (stride vertexCount : Nat) (indices : Option (List Nat)) (vao vbo ibo : Nat) :
    (∀ list, indices = some list → list ≠ [] →
      (VBO.new mode pk attrs stride vertexCount indices vao vbo ibo).1.index_count =
        list.length ∧
      (VBO.new mode pk attrs stride vertexCount indices vao
          vbo ibo).1.render.filter GLCall.isDrawCall =
        [GLCall.drawElements pk.to_raw_enum list.length glUNSIGNED_SHORT_ENUM 0]) ∧
    (indices = none →
      (VBO.new mode pk attrs stride vertexCount indices vao vbo ibo).1.index_count = 0 ∧
      (VBO.new mode pk attrs stride vertexCount indices vao
          vbo ibo).1.render.filter GLCall.isDrawCall =
        [GLCall.drawArrays pk.to_raw_enum 0 vertexCount]) := by
  constructor
  · rintro list rfl hne
    have hpos : 0 < list.length := List.length_pos.mpr hne
    refine ⟨rfl, ?_⟩
    simp [VBO.new, VBO.render, GLCall.isDrawCall, hpos]
  · rintro rfl
    refine ⟨rfl, ?_⟩
    simp [VBO.new, VBO.render, GLCall.isDrawCall]

/-- Witness for C9 at concrete inputs: 4 vertices with the 6 indices of a
two-triangle quad yield one indexed draw of 6; 4 vertices with no indices and
triangle-fan topology yield one non-indexed draw of 4. -/
theorem vbo_render_spec_witness :
    (VBO.new BufferMode.StaticDraw PrimitiveKind.Triangles builtinColorVertexAttrs 16 4
        (some [0, 1, 2, 0, 2, 3]) 1 2 3).1.index_count = 6 ∧
    (VBO.new BufferMode.StaticDraw PrimitiveKind.Triangles builtinColorVertexAttrs 16 4
        (some [0, 1, 2, 0, 2, 3]) 1 2 3).1.render.filter GLCall.isDrawCall =
      [GLCall.drawElements PrimitiveKind.Triangles.to_raw_enum 6 glUNSIGNED_SHORT_ENUM 0] ∧
    (VBO.new BufferMode.StaticDraw PrimitiveKind.TriangleFan builtinColorVertexAttrs 16 4
        none 1 2 3).1.render.filter GLCall.isDrawCall =
      [GLCall.drawArrays PrimitiveKind.TriangleFan.to_raw_enum 0 4] := by
  have h1 := (vbo_render_spec BufferMode.StaticDraw PrimitiveKind.Triangles
    builtinColorVertexAttrs 16 4 (some [0, 1, 2, 0, 2, 3]) 1 2 3).1
    [0, 1, 2, 0, 2, 3] rfl (by decide)
  have h2 := (vbo_render_spec BufferMode.StaticDraw PrimitiveKind.TriangleFan
    builtinColorVertexAttrs 16 4 none 1 2 3).2 rfl
  exact ⟨h1.1, h1.2, h2.2⟩

/-- C10: `MinFilter::get_native` is not injective — both `LinearMipmapNearest`
and `LinearMipmapLinear` map to the `LINEAR_MIPMAP_LINEAR` enumerant, which
differs from `LINEAR_MIPMAP_NEAREST` — so on any mipmapped texture requesting
`LinearMipmapNearest` configures the driver's min filter with trilinear
`LINEAR_MIPMAP_LINEAR` sampling. -/
theorem min_filter_native_collision :
    MinFilter.get_native MinFilter.LinearMipmapNearest = glLINEAR_MIPMAP_LINEAR ∧
    MinFilter.get_native MinFilter.LinearMipmapLinear = glLINEAR_MIPMAP_LINEAR ∧
    glLINEAR_MIPMAP_LINEAR ≠ glLINEAR_MIPMAP_NEAREST ∧
    ¬ Function.Injective MinFilter.get_native ∧
    (∀ (t : Texture) (st : TexState), t.mipmaps = true →
      (t.set_min_filter st MinFilter.LinearMipmapNearest).2.2.2.filter
          GLCall.isMinFilterCall =
        [GLCall.texParameteri glTEXTURE_2D glTEXTURE_MIN_FILTER glLINEAR_MIPMAP_LINEAR]) := by
  refine ⟨rfl, rfl, by decide, ?_, ?_⟩
  · intro hinj
    have h := @hinj MinFilter.LinearMipmapNearest MinFilter.LinearMipmapLinear rfl
    exact absurd h (by decide)
  · intro t st hm
    simp [Texture.set_min_filter, hm, bind_no_min_filter_calls,
      GLCall.isMinFilterCall, MinFilter.get_native, MinFilter.needsMipmaps]

/-- Witness for C10 at a concrete input: on the mipmapped sample texture the
`LinearMipmapNearest` request pushes `LINEAR_MIPMAP_LINEAR` to the driver. -/
theorem min_filter_native_collision_witness :
    mipTexture.mipmaps = true ∧
    (mipTexture.set_min_filter texBindState
        MinFilter.LinearMipmapNearest).2.2.2.filter GLCall.isMinFilterCall =
      [GLCall.texParameteri glTEXTURE_2D glTEXTURE_MIN_FILTER glLINEAR_MIPMAP_LINEAR] :=
  ⟨rfl, min_filter_native_collision.2.2.2.2 mipTexture texBindState rfl⟩
